import Mathlib

/-!
Shallow embedding of the Blood Donor Alert Platform backend (src/main.py).

The donor/hospital/request/response tables of the SQLite database are
modelled as lists of records; autoincrement ids for requests are modelled
as `length + 1`.  The `id` and `responded_at` columns of `donor_responses`
are never read by any endpoint and are omitted from the row record.

`calculate_distance` (haversine on Python floats) enters the pipeline only
as a sort key, so the embedding passes the distance function as an explicit
parameter of type `ℚ → ℚ → ℚ → ℚ → ℚ`; coordinates and distances are
rationals standing in for floats.  Python's `list.sort(key=...)` is a
stable sort; it is embedded as `List.insertionSort`, which is also stable,
hence produces the identical output list.

`create_blood_request` inserts the blood-request row before looking up the
hospital, but on the not-found path the connection is closed without
`commit()`, so SQLite rolls the insert back; the embedding therefore
returns an `Except.error` leaving the state untouched.  The SMS transport
is the injected capability `send : phone → message → Bool`; the source's
`send_sms` always returns `True` and its return value is ignored.
-/

namespace BloodDonor

/-- A row of the `donors` table (the columns the dispatch pipeline reads). -/
structure Donor where
  id : Nat
  name : String
  phone : String
  blood_type : String
  latitude : ℚ
  longitude : ℚ
  is_active : Bool
  deriving DecidableEq

/-- A row of the `hospitals` table (the columns the dispatch pipeline reads). -/
structure Hospital where
  id : Nat
  name : String
  phone : String
  latitude : ℚ
  longitude : ℚ
  deriving DecidableEq

/-- The `BloodRequest` Pydantic model posted to `/request/blood`. -/
structure BloodRequestIn where
  hospital_id : Nat
  blood_type : String
  units_needed : Nat
  urgency : String
  message : Option String
  expires_hours : Nat
  deriving DecidableEq

/-- The `DonorResponse` Pydantic model posted to `/respond`. -/
structure DonorResponseIn where
  request_id : Nat
  donor_id : Nat
  response : String
  deriving DecidableEq

/-- A row of the `blood_requests` table. -/
structure RequestRow where
  id : Nat
  hospital_id : Nat
  blood_type : String
  units_needed : Nat
  urgency : String
  message : Option String
  status : String
  expires_at : Nat
  deriving DecidableEq

/-- A row of the `donor_responses` table: `(request_id, donor_id, response)`.
The schema (src/main.py lines 95-105) has no distance column. -/
structure ResponseRow where
  request_id : Nat
  donor_id : Nat
  response : String
  deriving DecidableEq

/-- The database state. -/
structure DB where
  donors : List Donor
  hospitals : List Hospital
  blood_requests : List RequestRow
  donor_responses : List ResponseRow
  deriving DecidableEq

/-- The dict `{donor_id, distance, phone, name}` built per eligible donor
(src/main.py line 298). -/
structure RankedDonor where
  donor_id : Nat
  distance : ℚ
  phone : String
  name : String
  deriving DecidableEq

/-- The eligibility query: `SELECT * FROM donors WHERE blood_type = ? AND
is_active = 1` (src/main.py lines 285-288). -/
def eligible_donors (blood_type : String) (pool : List Donor) : List Donor :=
  pool.filter (fun d => d.blood_type == blood_type && d.is_active)

/-- The loop of src/main.py lines 292-298: pair each eligible donor with
its distance to the hospital. -/
def donors_with_distance (dist : ℚ → ℚ → ℚ → ℚ → ℚ) (hospital : Hospital)
    (donors : List Donor) : List RankedDonor :=
  donors.map (fun d =>
    ⟨d.id, dist hospital.latitude hospital.longitude d.latitude d.longitude,
      d.phone, d.name⟩)

/-- The sort key relation of `donors_with_distance.sort(key=lambda x: x[distance])`. -/
def distLE (a b : RankedDonor) : Prop := a.distance ≤ b.distance

instance : DecidableRel distLE :=
  fun a b => inferInstanceAs (Decidable (a.distance ≤ b.distance))

instance : IsTotal RankedDonor distLE := ⟨fun a b => le_total a.distance b.distance⟩

instance : IsTrans RankedDonor distLE := ⟨fun _ _ _ h h2 => le_trans h h2⟩

/-- `donors_with_distance.sort(key=lambda x: x[distance])` (src/main.py line 300):
a stable sort ascending by distance. -/
def rank_donors (l : List RankedDonor) : List RankedDonor :=
  l.insertionSort distLE

/-- `top_donors = donors_with_distance[:request.units_needed]` (line 303). -/
def top_donors (l : List RankedDonor) (units_needed : Nat) : List RankedDonor :=
  (rank_donors l).take units_needed

/-- `all_other_donors = donors_with_distance[request.units_needed:]` (line 304). -/
def all_other_donors (l : List RankedDonor) (units_needed : Nat) : List RankedDonor :=
  (rank_donors l).drop units_needed

/-- The decision rows written in the two insert loops of src/main.py lines
307-322: `'available'` for each top donor, `'not_selected'` for the rest. -/
def decision_rows (request_id : Nat) (top other : List RankedDonor) : List ResponseRow :=
  top.map (fun t => ⟨request_id, t.donor_id, "available"⟩)
    ++ other.map (fun o => ⟨request_id, o.donor_id, "not_selected"⟩)

/-- `urgency_emoji.get(request.urgency, default)` (src/main.py line 314). -/
def urgency_emoji (urgency : String) : String :=
  if urgency == "low" then "🟢"
  else if urgency == "medium" then "🟡"
  else if urgency == "high" then "🔴"
  else if urgency == "critical" then "🚨"
  else "🩸"

/-- The `:.1f` rendering of the distance in the message f-string: one
decimal place (float rounding approximated by rounding the rational;
`(20 * num + den) / (2 * den)` is `⌊d * 10 + 1 / 2⌋` computed on the
numerator and denominator so it evaluates by kernel reduction). -/
def format_km (d : ℚ) : String :=
  let n : ℤ := (20 * d.num + (d.den : ℤ)) / (2 * (d.den : ℤ))
  toString (n / 10) ++ "." ++ toString (n % 10)

/-- The notification f-string of src/main.py line 315. -/
def build_message (urgency hospital_name blood_type : String)
    (units_needed : Nat) (d : ℚ) (hospital_phone : String) : String :=
  urgency_emoji urgency ++ " URGENT: " ++ hospital_name ++ " needs "
    ++ blood_type ++ " blood (" ++ toString units_needed
    ++ " units). Distance: " ++ format_km d
    ++ "km. We\x27ve selected you as a top priority. Please contact the hospital at "
    ++ hospital_phone ++ "."

/-- The JSON body returned by `create_blood_request` (src/main.py lines 327-332). -/
structure CreateResult where
  message : String
  request_id : Nat
  notified_donors : List String
  not_selected_donors : List String
  deriving DecidableEq

/-- An `HTTPException(status_code, detail)`. -/
structure HTTPError where
  status_code : Nat
  detail : String
  deriving DecidableEq

/-- `create_blood_request` (src/main.py lines 257-332).  Returns the new
database state, the log of attempted SMS sends `(phone, message, send result)`
in order, and the response body; or the 404 error when the hospital id
resolves to no row (the uncommitted request insert is rolled back by
`conn.close()`, so the state is unchanged on that path). -/
def create_blood_request (dist : ℚ → ℚ → ℚ → ℚ → ℚ)
    (send : String → String → Bool) (now : Nat) (st : DB)
    (request : BloodRequestIn) :
    Except HTTPError (DB × List (String × String × Bool) × CreateResult) :=
  let expires_at := now + request.expires_hours
  let request_id := st.blood_requests.length + 1
  let request_row : RequestRow :=
    ⟨request_id, request.hospital_id, request.blood_type, request.units_needed,
      request.urgency, request.message, "active", expires_at⟩
  match st.hospitals.find? (fun h => h.id == request.hospital_id) with
  | none => .error ⟨404, "Hospital not found"⟩
  | some hospital =>
    let elig := eligible_donors request.blood_type st.donors
    let ranked_pool := donors_with_distance dist hospital elig
    let top := top_donors ranked_pool request.units_needed
    let other := all_other_donors ranked_pool request.units_needed
    let rows := decision_rows request_id top other
    let sends := top.map (fun t =>
      let msg := build_message request.urgency hospital.name request.blood_type
        request.units_needed t.distance hospital.phone
      (t.phone, msg, send t.phone msg))
    .ok ({ st with
            blood_requests := st.blood_requests ++ [request_row],
            donor_responses := st.donor_responses ++ rows },
          sends,
          ⟨"Blood request created successfully. " ++ toString top.length
              ++ " donors notified.",
            request_id, top.map (fun t => t.name), other.map (fun o => o.name)⟩)

/-- The database state after a `create_blood_request` call (unchanged when
the call raised). -/
def db_after (dist : ℚ → ℚ → ℚ → ℚ → ℚ) (send : String → String → Bool)
    (now : Nat) (st : DB) (request : BloodRequestIn) : DB :=
  match create_blood_request dist send now st request with
  | .ok (db, _, _) => db
  | .error _ => st

/-- The decision rows a `create_blood_request` call appended to
`donor_responses` (none when the call raised). -/
def rows_written (dist : ℚ → ℚ → ℚ → ℚ → ℚ) (send : String → String → Bool)
    (now : Nat) (st : DB) (request : BloodRequestIn) : List ResponseRow :=
  match create_blood_request dist send now st request with
  | .ok (db, _, _) => db.donor_responses.drop st.donor_responses.length
  | .error _ => []

/-- The SMS sends a `create_blood_request` call attempted (none when the
call raised). -/
def sends_attempted (dist : ℚ → ℚ → ℚ → ℚ → ℚ) (send : String → String → Bool)
    (now : Nat) (st : DB) (request : BloodRequestIn) :
    List (String × String × Bool) :=
  match create_blood_request dist send now st request with
  | .ok (_, sends, _) => sends
  | .error _ => []

/-- `donor_respond` (src/main.py lines 334-347): unconditionally insert the
response row and report success. -/
def donor_respond (st : DB) (response : DonorResponseIn) : DB × String :=
  ({ st with donor_responses := st.donor_responses
      ++ [⟨response.request_id, response.donor_id, response.response⟩] },
    "Response recorded successfully")

/-- `m` contains `sub` as a contiguous substring. -/
def str_contains (m sub : String) : Prop :=
  ∃ s t, m.data = s ++ sub.data ++ t

/-! Concrete sample data used to instantiate the theorems below. -/

/-- A stand-in distance function for concrete runs: the donor latitude is
used as the distance, so distances differ per donor. -/
def sample_dist : ℚ → ℚ → ℚ → ℚ → ℚ := fun _ _ lat _ => lat

/-- The transport of the source, which always reports success. -/
def sendT : String → String → Bool := fun _ _ => true

def H1 : Hospital := ⟨1, "City Hospital", "555-0100", 0, 0⟩

def D1 : Donor := ⟨1, "Asha", "p1", "O+", 5, 0, true⟩

def D2 : Donor := ⟨2, "Ravi", "p2", "O+", 1, 0, true⟩

def D3 : Donor := ⟨3, "Kiran", "p3", "O+", 2, 0, false⟩

def D4 : Donor := ⟨4, "Meera", "p4", "A-", 3, 0, true⟩

def sample_pool : List Donor := [D1, D2, D3, D4]

def sampleDB : DB := ⟨sample_pool, [H1], [], []⟩

def DB0 : DB := ⟨[], [], [], []⟩

def sampleReq : BloodRequestIn := ⟨1, "O+", 1, "critical", none, 24⟩

def sampleReq0 : BloodRequestIn := ⟨1, "O+", 0, "low", none, 24⟩

/-! Helper lemmas about the pipeline stages. -/

lemma length_rank_donors (l : List RankedDonor) : (rank_donors l).length = l.length :=
  List.length_insertionSort _ l

lemma rank_donors_perm (l : List RankedDonor) : List.Perm (rank_donors l) l :=
  List.perm_insertionSort _ l

lemma sorted_rank_donors (l : List RankedDonor) : List.Sorted distLE (rank_donors l) :=
  List.sorted_insertionSort _ l

lemma mem_of_mem_top_donors {l : List RankedDonor} {n : Nat} {t : RankedDonor}
    (h : t ∈ top_donors l n) : t ∈ l :=
  (rank_donors_perm l).mem_iff.mp ((List.take_sublist n (rank_donors l)).subset h)

lemma mem_of_mem_all_other {l : List RankedDonor} {n : Nat} {t : RankedDonor}
    (h : t ∈ all_other_donors l n) : t ∈ l :=
  (rank_donors_perm l).mem_iff.mp ((List.drop_sublist n (rank_donors l)).subset h)

lemma length_donors_with_distance (dist : ℚ → ℚ → ℚ → ℚ → ℚ) (hospital : Hospital)
    (ds : List Donor) : (donors_with_distance dist hospital ds).length = ds.length :=
  List.length_map ds _

lemma mem_donors_with_distance {dist : ℚ → ℚ → ℚ → ℚ → ℚ} {hospital : Hospital}
    {ds : List Donor} {t : RankedDonor} (h : t ∈ donors_with_distance dist hospital ds) :
    ∃ d ∈ ds, t.donor_id = d.id ∧ t.phone = d.phone := by
  obtain ⟨d, hd, rfl⟩ := List.mem_map.mp h
  exact ⟨d, hd, rfl, rfl⟩

lemma create_eq_error {dist : ℚ → ℚ → ℚ → ℚ → ℚ} {send : String → String → Bool}
    {now : Nat} {st : DB} {request : BloodRequestIn}
    (hfind : st.hospitals.find? (fun h => h.id == request.hospital_id) = none) :
    create_blood_request dist send now st request = .error ⟨404, "Hospital not found"⟩ := by
  simp [create_blood_request, hfind]

lemma create_eq_ok {dist : ℚ → ℚ → ℚ → ℚ → ℚ} {send : String → String → Bool}
    {now : Nat} {st : DB} {request : BloodRequestIn} {h : Hospital}
    (hfind : st.hospitals.find? (fun x => x.id == request.hospital_id) = some h) :
    create_blood_request dist send now st request = .ok
      ({ st with
          blood_requests := st.blood_requests
            ++ [⟨st.blood_requests.length + 1, request.hospital_id, request.blood_type,
                  request.units_needed, request.urgency, request.message, "active",
                  now + request.expires_hours⟩],
          donor_responses := st.donor_responses
            ++ decision_rows (st.blood_requests.length + 1)
                (top_donors (donors_with_distance dist h
                    (eligible_donors request.blood_type st.donors)) request.units_needed)
                (all_other_donors (donors_with_distance dist h
                    (eligible_donors request.blood_type st.donors)) request.units_needed) },
        (top_donors (donors_with_distance dist h
            (eligible_donors request.blood_type st.donors)) request.units_needed).map
          (fun t =>
            (t.phone,
              build_message request.urgency h.name request.blood_type
                request.units_needed t.distance h.phone,
              send t.phone (build_message request.urgency h.name request.blood_type
                request.units_needed t.distance h.phone))),
        ⟨"Blood request created successfully. "
            ++ toString (top_donors (donors_with_distance dist h
                (eligible_donors request.blood_type st.donors)) request.units_needed).length
            ++ " donors notified.",
          st.blood_requests.length + 1,
          (top_donors (donors_with_distance dist h
              (eligible_donors request.blood_type st.donors)) request.units_needed).map
            (fun t => t.name),
          (all_other_donors (donors_with_distance dist h
              (eligible_donors request.blood_type st.donors)) request.units_needed).map
            (fun o => o.name)⟩) := by
  simp [create_blood_request, hfind]

lemma rows_written_ok {dist : ℚ → ℚ → ℚ → ℚ → ℚ} {send : String → String → Bool}
    {now : Nat} {st : DB} {request : BloodRequestIn} {h : Hospital}
    (hfind : st.hospitals.find? (fun x => x.id == request.hospital_id) = some h) :
    rows_written dist send now st request =
      decision_rows (st.blood_requests.length + 1)
        (top_donors (donors_with_distance dist h
            (eligible_donors request.blood_type st.donors)) request.units_needed)
        (all_other_donors (donors_with_distance dist h
            (eligible_donors request.blood_type st.donors)) request.units_needed) := by
  simp [rows_written, create_eq_ok hfind, List.drop_left]

lemma sends_attempted_ok {dist : ℚ → ℚ → ℚ → ℚ → ℚ} {send : String → String → Bool}
    {now : Nat} {st : DB} {request : BloodRequestIn} {h : Hospital}
    (hfind : st.hospitals.find? (fun x => x.id == request.hospital_id) = some h) :
    sends_attempted dist send now st request =
      (top_donors (donors_with_distance dist h
          (eligible_donors request.blood_type st.donors)) request.units_needed).map
        (fun t =>
          (t.phone,
            build_message request.urgency h.name request.blood_type
              request.units_needed t.distance h.phone,
            send t.phone (build_message request.urgency h.name request.blood_type
              request.units_needed t.distance h.phone))) := by
  simp [sends_attempted, create_eq_ok hfind]

lemma rows_written_none {dist : ℚ → ℚ → ℚ → ℚ → ℚ} {send : String → String → Bool}
    {now : Nat} {st : DB} {request : BloodRequestIn}
    (hfind : st.hospitals.find? (fun h => h.id == request.hospital_id) = none) :
    rows_written dist send now st request = [] := by
  simp [rows_written, create_eq_error hfind]

lemma sends_attempted_none {dist : ℚ → ℚ → ℚ → ℚ → ℚ} {send : String → String → Bool}
    {now : Nat} {st : DB} {request : BloodRequestIn}
    (hfind : st.hospitals.find? (fun h => h.id == request.hospital_id) = none) :
    sends_attempted dist send now st request = [] := by
  simp [sends_attempted, create_eq_error hfind]

lemma db_after_none {dist : ℚ → ℚ → ℚ → ℚ → ℚ} {send : String → String → Bool}
    {now : Nat} {st : DB} {request : BloodRequestIn}
    (hfind : st.hospitals.find? (fun h => h.id == request.hospital_id) = none) :
    db_after dist send now st request = st := by
  simp [db_after, create_eq_error hfind]

lemma db_after_ok {dist : ℚ → ℚ → ℚ → ℚ → ℚ} {send : String → String → Bool}
    {now : Nat} {st : DB} {request : BloodRequestIn} {h : Hospital}
    (hfind : st.hospitals.find? (fun x => x.id == request.hospital_id) = some h) :
    db_after dist send now st request =
      { st with
          blood_requests := st.blood_requests
            ++ [⟨st.blood_requests.length + 1, request.hospital_id, request.blood_type,
                  request.units_needed, request.urgency, request.message, "active",
                  now + request.expires_hours⟩],
          donor_responses := st.donor_responses
            ++ decision_rows (st.blood_requests.length + 1)
                (top_donors (donors_with_distance dist h
                    (eligible_donors request.blood_type st.donors)) request.units_needed)
                (all_other_donors (donors_with_distance dist h
                    (eligible_donors request.blood_type st.donors)) request.units_needed) } := by
  simp [db_after, create_eq_ok hfind]

lemma mem_eligible_of_mem_top {dist : ℚ → ℚ → ℚ → ℚ → ℚ} {hospital : Hospital}
    {bt : String} {pool : List Donor} {n : Nat} {t : RankedDonor}
    (h : t ∈ top_donors (donors_with_distance dist hospital (eligible_donors bt pool)) n) :
    ∃ d ∈ eligible_donors bt pool, t.donor_id = d.id ∧ t.phone = d.phone :=
  mem_donors_with_distance (mem_of_mem_top_donors h)

lemma mem_eligible_of_mem_other {dist : ℚ → ℚ → ℚ → ℚ → ℚ} {hospital : Hospital}
    {bt : String} {pool : List Donor} {n : Nat} {t : RankedDonor}
    (h : t ∈ all_other_donors (donors_with_distance dist hospital (eligible_donors bt pool)) n) :
    ∃ d ∈ eligible_donors bt pool, t.donor_id = d.id ∧ t.phone = d.phone :=
  mem_donors_with_distance (mem_of_mem_all_other h)

/-- C1: for every request with eligible-donor set `E` and `units_needed = n`,
`|selected| + |not_selected| = |E|` and `|selected| = min n |E|`; when fewer
than `n` eligible donors exist, `selected` is the entire ranked sequence and
`not_selected` is empty; and the request does not error (it succeeds whenever
the hospital exists, regardless of supply). -/
theorem selected_partition_sizes (dist : ℚ → ℚ → ℚ → ℚ → ℚ)
    (send : String → String → Bool) (now : Nat) (hosp : Hospital) (bt : String)
    (pool : List Donor) (n : Nat) (st : DB) (request : BloodRequestIn) (h : Hospital) :
    (top_donors (donors_with_distance dist hosp (eligible_donors bt pool)) n).length
        + (all_other_donors (donors_with_distance dist hosp (eligible_donors bt pool)) n).length
      = (eligible_donors bt pool).length
    ∧ (top_donors (donors_with_distance dist hosp (eligible_donors bt pool)) n).length
      = min n (eligible_donors bt pool).length
    ∧ ((eligible_donors bt pool).length < n →
        top_donors (donors_with_distance dist hosp (eligible_donors bt pool)) n
            = rank_donors (donors_with_distance dist hosp (eligible_donors bt pool))
          ∧ all_other_donors (donors_with_distance dist hosp (eligible_donors bt pool)) n = [])
    ∧ (st.hospitals.find? (fun x => x.id == request.hospital_id) = some h →
        (create_blood_request dist send now st request).isOk = true) := by
  have hlen : (rank_donors (donors_with_distance dist hosp (eligible_donors bt pool))).length
      = (eligible_donors bt pool).length := by
    rw [length_rank_donors, length_donors_with_distance]
  refine ⟨?_, ?_, fun hlt => ⟨?_, ?_⟩, fun hfind => ?_⟩
  · simp only [top_donors, all_other_donors, List.length_take, List.length_drop, hlen]
    omega
  · simp only [top_donors, List.length_take, hlen]
  · exact List.take_of_length_le (by omega)
  · exact List.drop_eq_nil_of_le (by omega)
  · rw [create_eq_ok hfind]
    rfl

/-- C1 witness: with two eligible donors and `units_needed = 5`, the selected
partition is the whole ranked sequence, the not-selected partition is empty,
and the concrete request succeeds. -/
theorem selected_partition_sizes_witness :
    (eligible_donors "O+" sample_pool).length < 5
    ∧ (top_donors (donors_with_distance sample_dist H1 (eligible_donors "O+" sample_pool)) 5
          = rank_donors (donors_with_distance sample_dist H1 (eligible_donors "O+" sample_pool))
        ∧ all_other_donors (donors_with_distance sample_dist H1
            (eligible_donors "O+" sample_pool)) 5 = [])
    ∧ sampleDB.hospitals.find? (fun x => x.id == sampleReq.hospital_id) = some H1
    ∧ (create_blood_request sample_dist sendT 0 sampleDB sampleReq).isOk = true :=
  ⟨by decide,
    (selected_partition_sizes sample_dist sendT 0 H1 "O+" sample_pool 5 sampleDB sampleReq
        H1).2.2.1 (by decide),
    by decide,
    (selected_partition_sizes sample_dist sendT 0 H1 "O+" sample_pool 5 sampleDB sampleReq
        H1).2.2.2 (by decide)⟩

/-- C2: the selected partition is sorted ascending by distance, and every
distance in the selected partition is at most every distance in the
not-selected partition. -/
theorem selected_sorted_by_distance (dist : ℚ → ℚ → ℚ → ℚ → ℚ) (hosp : Hospital)
    (bt : String) (pool : List Donor) (n : Nat) :
    List.Sorted distLE
        (top_donors (donors_with_distance dist hosp (eligible_donors bt pool)) n)
    ∧ ∀ a ∈ top_donors (donors_with_distance dist hosp (eligible_donors bt pool)) n,
        ∀ b ∈ all_other_donors (donors_with_distance dist hosp (eligible_donors bt pool)) n,
          a.distance ≤ b.distance := by
  constructor
  · exact (sorted_rank_donors _).sublist
      (List.take_sublist n (rank_donors (donors_with_distance dist hosp
        (eligible_donors bt pool))))
  · intro a ha b hb
    have hs := sorted_rank_donors (donors_with_distance dist hosp (eligible_donors bt pool))
    rw [← List.take_append_drop n (rank_donors (donors_with_distance dist hosp
      (eligible_donors bt pool)))] at hs
    exact (List.pairwise_append.mp hs).2.2 a ha b hb

/-- C2 witness: on the concrete pool the closest donor is selected and its
distance is at most the not-selected donor's distance. -/
theorem selected_sorted_by_distance_witness :
    (⟨2, 1, "p2", "Ravi"⟩ : RankedDonor)
        ∈ top_donors (donors_with_distance sample_dist H1 (eligible_donors "O+" sample_pool)) 1
    ∧ (⟨1, 5, "p1", "Asha"⟩ : RankedDonor)
        ∈ all_other_donors (donors_with_distance sample_dist H1
            (eligible_donors "O+" sample_pool)) 1
    ∧ (⟨2, 1, "p2", "Ravi"⟩ : RankedDonor).distance
        ≤ (⟨1, 5, "p1", "Asha"⟩ : RankedDonor).distance :=
  ⟨by decide, by decide,
    (selected_sorted_by_distance sample_dist H1 "O+" sample_pool 1).2
      ⟨2, 1, "p2", "Ravi"⟩ (by decide) ⟨1, 5, "p1", "Asha"⟩ (by decide)⟩

/-- C3: when the hospital id resolves to no hospital row, the request fails
with the 404 not-found error, the database is unchanged (the uncommitted
request insert is rolled back), no decision row is written and no
notification is attempted. -/
theorem hospital_not_found_aborts (dist : ℚ → ℚ → ℚ → ℚ → ℚ)
    (send : String → String → Bool) (now : Nat) (st : DB) (request : BloodRequestIn)
    (hfind : st.hospitals.find? (fun h => h.id == request.hospital_id) = none) :
    create_blood_request dist send now st request = .error ⟨404, "Hospital not found"⟩
    ∧ db_after dist send now st request = st
    ∧ rows_written dist send now st request = []
    ∧ sends_attempted dist send now st request = [] :=
  ⟨create_eq_error hfind, db_after_none hfind, rows_written_none hfind,
    sends_attempted_none hfind⟩

/-- C3 witness: on an empty hospitals table the concrete request aborts with
the 404 error and writes nothing. -/
theorem hospital_not_found_aborts_witness :
    DB0.hospitals.find? (fun h => h.id == sampleReq.hospital_id) = none
    ∧ create_blood_request sample_dist sendT 0 DB0 sampleReq
        = .error ⟨404, "Hospital not found"⟩
    ∧ rows_written sample_dist sendT 0 DB0 sampleReq = [] :=
  ⟨by decide,
    (hospital_not_found_aborts sample_dist sendT 0 DB0 sampleReq (by decide)).1,
    (hospital_not_found_aborts sample_dist sendT 0 DB0 sampleReq (by decide)).2.2.1⟩

/-- C4 counterexample: on a concrete request the decision row written for
the selected donor carries the response string `"available"`, not
`"selected"`, and the complete row content is `(request_id, donor_id,
response)` — the `donor_responses` schema stores no distance. -/
theorem decision_verdict_cex :
    (rows_written sample_dist sendT 0 sampleDB sampleReq).map (fun r => r.response)
        = ["available", "not_selected"]
    ∧ rows_written sample_dist sendT 0 sampleDB sampleReq
        = [⟨1, 2, "available"⟩, ⟨1, 1, "not_selected"⟩]
    ∧ ("available" : String) ≠ "selected" := by
  refine ⟨by decide, by decide, by decide⟩

/-- C4 amended: for every donor in the selected partition the pipeline
writes a decision row with response `"available"`, for every donor in the
not-selected partition a row with response `"not_selected"`, every written
row is one of those two, and each row stores only the request reference,
the donor reference and the response string — no distance-at-decision. -/
theorem decision_rows_per_partition (dist : ℚ → ℚ → ℚ → ℚ → ℚ)
    (send : String → String → Bool) (now : Nat) (st : DB)
    (request : BloodRequestIn) (h : Hospital)
    (hfind : st.hospitals.find? (fun x => x.id == request.hospital_id) = some h) :
    (∀ t ∈ top_donors (donors_with_distance dist h
          (eligible_donors request.blood_type st.donors)) request.units_needed,
        (⟨st.blood_requests.length + 1, t.donor_id, "available"⟩ : ResponseRow)
          ∈ rows_written dist send now st request)
    ∧ (∀ o ∈ all_other_donors (donors_with_distance dist h
          (eligible_donors request.blood_type st.donors)) request.units_needed,
        (⟨st.blood_requests.length + 1, o.donor_id, "not_selected"⟩ : ResponseRow)
          ∈ rows_written dist send now st request)
    ∧ ∀ row ∈ rows_written dist send now st request,
        row.request_id = st.blood_requests.length + 1
        ∧ (row.response = "available" ∨ row.response = "not_selected") := by
  rw [rows_written_ok hfind]
  refine ⟨fun t ht => ?_, fun o ho => ?_, fun row hrow => ?_⟩
  · exact List.mem_append_left _ (List.mem_map.mpr ⟨t, ht, rfl⟩)
  · exact List.mem_append_right _ (List.mem_map.mpr ⟨o, ho, rfl⟩)
  · rcases List.mem_append.mp hrow with hm | hm
    · obtain ⟨t, _, rfl⟩ := List.mem_map.mp hm
      exact ⟨rfl, Or.inl rfl⟩
    · obtain ⟨o, _, rfl⟩ := List.mem_map.mp hm
      exact ⟨rfl, Or.inr rfl⟩

/-- C4 witness: on the concrete request the selected donor's row
`(1, 2, "available")` and the not-selected donor's row
`(1, 1, "not_selected")` are both written. -/
theorem decision_rows_per_partition_witness :
    sampleDB.hospitals.find? (fun x => x.id == sampleReq.hospital_id) = some H1
    ∧ (⟨2, 1, "p2", "Ravi"⟩ : RankedDonor)
        ∈ top_donors (donors_with_distance sample_dist H1
            (eligible_donors sampleReq.blood_type sampleDB.donors)) sampleReq.units_needed
    ∧ (⟨1, 2, "available"⟩ : ResponseRow)
        ∈ rows_written sample_dist sendT 0 sampleDB sampleReq
    ∧ (⟨1, 5, "p1", "Asha"⟩ : RankedDonor)
        ∈ all_other_donors (donors_with_distance sample_dist H1
            (eligible_donors sampleReq.blood_type sampleDB.donors)) sampleReq.units_needed
    ∧ (⟨1, 1, "not_selected"⟩ : ResponseRow)
        ∈ rows_written sample_dist sendT 0 sampleDB sampleReq :=
  ⟨by decide, by decide,
    (decision_rows_per_partition sample_dist sendT 0 sampleDB sampleReq H1 (by decide)).1
      ⟨2, 1, "p2", "Ravi"⟩ (by decide),
    by decide,
    (decision_rows_per_partition sample_dist sendT 0 sampleDB sampleReq H1 (by decide)).2.1
      ⟨1, 5, "p1", "Asha"⟩ (by decide)⟩

/-- C5: one pipeline run writes decision rows whose donor ids are a
permutation of the eligible-donor ids (exactly one row per eligible donor:
no omissions, no row for a donor outside the eligible set), and the rows
are duplicate-free whenever the eligible ids are. -/
theorem one_decision_per_eligible (dist : ℚ → ℚ → ℚ → ℚ → ℚ)
    (send : String → String → Bool) (now : Nat) (st : DB)
    (request : BloodRequestIn) (h : Hospital)
    (hfind : st.hospitals.find? (fun x => x.id == request.hospital_id) = some h) :
    List.Perm ((rows_written dist send now st request).map (fun r => r.donor_id))
        ((eligible_donors request.blood_type st.donors).map (fun d => d.id))
    ∧ (((eligible_donors request.blood_type st.donors).map (fun d => d.id)).Nodup →
        ((rows_written dist send now st request).map (fun r => r.donor_id)).Nodup)
    ∧ ∀ i ∈ (rows_written dist send now st request).map (fun r => r.donor_id),
        i ∈ (eligible_donors request.blood_type st.donors).map (fun d => d.id) := by
  have hperm : List.Perm
      ((rows_written dist send now st request).map (fun r => r.donor_id))
      ((eligible_donors request.blood_type st.donors).map (fun d => d.id)) := by
    rw [rows_written_ok hfind]
    have hsplit : (decision_rows (st.blood_requests.length + 1)
        (top_donors (donors_with_distance dist h
            (eligible_donors request.blood_type st.donors)) request.units_needed)
        (all_other_donors (donors_with_distance dist h
            (eligible_donors request.blood_type st.donors)) request.units_needed)).map
          (fun r => r.donor_id)
        = (rank_donors (donors_with_distance dist h
            (eligible_donors request.blood_type st.donors))).map (fun t => t.donor_id) := by
      simp only [decision_rows, List.map_append, List.map_map, Function.comp_def,
        top_donors, all_other_donors]
      rw [← List.map_append, List.take_append_drop]
    rw [hsplit]
    have := (rank_donors_perm (donors_with_distance dist h
      (eligible_donors request.blood_type st.donors))).map (fun t => t.donor_id)
    refine this.trans ?_
    simp only [donors_with_distance, List.map_map]
    exact List.Perm.refl _
  exact ⟨hperm, fun hnd => hperm.nodup_iff.mpr hnd, fun i hi => hperm.mem_iff.mp hi⟩

/-- C5 witness: on the concrete request the written donor ids `[2, 1]` are a
duplicate-free permutation of the eligible ids `[1, 2]`. -/
theorem one_decision_per_eligible_witness :
    sampleDB.hospitals.find? (fun x => x.id == sampleReq.hospital_id) = some H1
    ∧ List.Perm ((rows_written sample_dist sendT 0 sampleDB sampleReq).map
          (fun r => r.donor_id))
        ((eligible_donors sampleReq.blood_type sampleDB.donors).map (fun d => d.id))
    ∧ ((eligible_donors sampleReq.blood_type sampleDB.donors).map (fun d => d.id)).Nodup
    ∧ ((rows_written sample_dist sendT 0 sampleDB sampleReq).map
        (fun r => r.donor_id)).Nodup :=
  ⟨by decide,
    (one_decision_per_eligible sample_dist sendT 0 sampleDB sampleReq H1 (by decide)).1,
    by decide,
    (one_decision_per_eligible sample_dist sendT 0 sampleDB sampleReq H1 (by decide)).2.1
      (by decide)⟩

/-- C6: the eligibility filter returns exactly the donors whose blood type
equals the requested type character-for-character and whose active flag is
set; an empty filter result is not an error; and every notified phone and
every decision row belongs to an eligible donor (no inactive donor and no
donor of a different blood type is ever notified or recorded). -/
theorem eligibility_filter_exact (bt : String) (pool : List Donor)
    (dist : ℚ → ℚ → ℚ → ℚ → ℚ) (send : String → String → Bool) (now : Nat)
    (st : DB) (request : BloodRequestIn) :
    (∀ d : Donor, d ∈ eligible_donors bt pool
        ↔ (d ∈ pool ∧ d.blood_type = bt ∧ d.is_active = true))
    ∧ (∀ ph ∈ (sends_attempted dist send now st request).map (fun s => s.1),
        ∃ d, d ∈ eligible_donors request.blood_type st.donors ∧ ph = d.phone)
    ∧ (∀ row ∈ rows_written dist send now st request,
        ∃ d, d ∈ eligible_donors request.blood_type st.donors ∧ row.donor_id = d.id)
    ∧ (eligible_donors request.blood_type st.donors = [] →
        sends_attempted dist send now st request = []) := by
  refine ⟨?_, ?_, ?_, ?_⟩
  · intro d
    simp [eligible_donors, List.mem_filter]
  · intro ph hph
    cases hfind : st.hospitals.find? (fun x => x.id == request.hospital_id) with
    | none => rw [sends_attempted_none hfind] at hph; cases hph
    | some h =>
      rw [sends_attempted_ok hfind, List.map_map] at hph
      obtain ⟨t, ht, rfl⟩ := List.mem_map.mp hph
      obtain ⟨d, hd, _, hphone⟩ := mem_eligible_of_mem_top ht
      exact ⟨d, hd, hphone⟩
  · intro row hrow
    cases hfind : st.hospitals.find? (fun x => x.id == request.hospital_id) with
    | none => rw [rows_written_none hfind] at hrow; cases hrow
    | some h =>
      rw [rows_written_ok hfind] at hrow
      rcases List.mem_append.mp hrow with hm | hm
      · obtain ⟨t, ht, rfl⟩ := List.mem_map.mp hm
        obtain ⟨d, hd, hid, _⟩ := mem_eligible_of_mem_top ht
        exact ⟨d, hd, hid⟩
      · obtain ⟨t, ht, rfl⟩ := List.mem_map.mp hm
        obtain ⟨d, hd, hid, _⟩ := mem_eligible_of_mem_other ht
        exact ⟨d, hd, hid⟩
  · intro he
    cases hfind : st.hospitals.find? (fun x => x.id == request.hospital_id) with
    | none => exact sends_attempted_none hfind
    | some h =>
      rw [sends_attempted_ok hfind, he]
      simp [top_donors, rank_donors, donors_with_distance, List.insertionSort]

/-- C6 witness: on the concrete pool the filter keeps exactly the two active
O+ donors (the inactive O+ donor and the A- donor are excluded), and the one
notified phone belongs to an eligible donor. -/
theorem eligibility_filter_exact_witness :
    (D1 ∈ eligible_donors "O+" sample_pool
        ↔ (D1 ∈ sample_pool ∧ D1.blood_type = "O+" ∧ D1.is_active = true))
    ∧ ("p2" : String) ∈ (sends_attempted sample_dist sendT 0 sampleDB sampleReq).map
        (fun s => s.1)
    ∧ (∃ d, d ∈ eligible_donors sampleReq.blood_type sampleDB.donors ∧ "p2" = d.phone)
    ∧ eligible_donors "O+" sample_pool = [D1, D2] :=
  ⟨(eligibility_filter_exact "O+" sample_pool sample_dist sendT 0 sampleDB sampleReq).1 D1,
    by decide,
    (eligibility_filter_exact "O+" sample_pool sample_dist sendT 0 sampleDB
        sampleReq).2.1 "p2" (by decide),
    by decide⟩

/-- C7: the persisted state, the decision rows and the attempted
notification batch (recipients and messages, in order) do not depend on the
outcomes of the transport's sends: replacing the send function by any other
one — in particular one failing on some donor X — changes neither which
decision rows are written nor which donors are notified. -/
theorem send_failure_independent (dist : ℚ → ℚ → ℚ → ℚ → ℚ)
    (f g : String → String → Bool) (now : Nat) (st : DB) (request : BloodRequestIn) :
    db_after dist f now st request = db_after dist g now st request
    ∧ rows_written dist f now st request = rows_written dist g now st request
    ∧ (sends_attempted dist f now st request).map (fun s => (s.1, s.2.1))
      = (sends_attempted dist g now st request).map (fun s => (s.1, s.2.1)) := by
  cases hfind : st.hospitals.find? (fun x => x.id == request.hospital_id) with
  | none =>
    rw [db_after_none hfind, db_after_none hfind, rows_written_none hfind,
      rows_written_none hfind, sends_attempted_none hfind, sends_attempted_none hfind]
    exact ⟨rfl, rfl, rfl⟩
  | some h =>
    rw [db_after_ok hfind, db_after_ok hfind, rows_written_ok hfind,
      rows_written_ok hfind, sends_attempted_ok hfind, sends_attempted_ok hfind,
      List.map_map, List.map_map]
    exact ⟨rfl, rfl, rfl⟩

/-- C8 counterexample: with `units_needed = 0` and a nonempty eligible set,
the not-selected partition is the entire eligible set (two donors), not
empty, and the pipeline writes a `not_selected` decision row per eligible
donor instead of none. -/
theorem zero_units_partition_cex :
    all_other_donors (donors_with_distance sample_dist H1
        (eligible_donors "O+" sample_pool)) 0
      = [⟨2, 1, "p2", "Ravi"⟩, ⟨1, 5, "p1", "Asha"⟩]
    ∧ all_other_donors (donors_with_distance sample_dist H1
        (eligible_donors "O+" sample_pool)) 0 ≠ []
    ∧ rows_written sample_dist sendT 0 sampleDB sampleReq0
      = [⟨1, 2, "not_selected"⟩, ⟨1, 1, "not_selected"⟩] := by
  refine ⟨by decide, by decide, by decide⟩

/-- C8 amended: with an empty eligible set both partitions are empty; with
`units_needed = 0` the selected partition is empty but the not-selected
partition is the entire ranked eligible sequence; in both cases no error is
raised (the request succeeds whenever the hospital exists). -/
theorem empty_or_zero_partition (dist : ℚ → ℚ → ℚ → ℚ → ℚ) (hosp : Hospital)
    (bt : String) (pool : List Donor) (n : Nat) (L : List RankedDonor)
    (send : String → String → Bool) (now : Nat) (st : DB)
    (request : BloodRequestIn) (h : Hospital) :
    (eligible_donors bt pool = [] →
        top_donors (donors_with_distance dist hosp (eligible_donors bt pool)) n = []
        ∧ all_other_donors (donors_with_distance dist hosp (eligible_donors bt pool)) n = [])
    ∧ top_donors L 0 = []
    ∧ all_other_donors L 0 = rank_donors L
    ∧ (st.hospitals.find? (fun x => x.id == request.hospital_id) = some h →
        (create_blood_request dist send now st request).isOk = true) := by
  refine ⟨fun he => ?_, rfl, List.drop_zero _, fun hfind => ?_⟩
  · rw [he]
    simp [top_donors, all_other_donors, rank_donors, donors_with_distance,
      List.insertionSort]
  · rw [create_eq_ok hfind]
    rfl

/-- C8 witness: no AB- donor exists in the concrete pool, so both partitions
are empty, and the concrete zero-unit request still succeeds. -/
theorem empty_or_zero_partition_witness :
    eligible_donors "AB-" sample_pool = []
    ∧ (top_donors (donors_with_distance sample_dist H1
          (eligible_donors "AB-" sample_pool)) 3 = []
        ∧ all_other_donors (donors_with_distance sample_dist H1
            (eligible_donors "AB-" sample_pool)) 3 = [])
    ∧ sampleDB.hospitals.find? (fun x => x.id == sampleReq0.hospital_id) = some H1
    ∧ (create_blood_request sample_dist sendT 0 sampleDB sampleReq0).isOk = true :=
  ⟨by decide,
    (empty_or_zero_partition sample_dist H1 "AB-" sample_pool 3 [] sendT 0 sampleDB
        sampleReq0 H1).1 (by decide),
    by decide,
    (empty_or_zero_partition sample_dist H1 "AB-" sample_pool 3 [] sendT 0 sampleDB
        sampleReq0 H1).2.2.2 (by decide)⟩

lemma str_contains_refl (s : String) : str_contains s s :=
  ⟨[], [], by simp⟩

lemma str_contains_left {a m : String} (b : String) (h : str_contains a m) :
    str_contains (a ++ b) m := by
  obtain ⟨s, t, hs⟩ := h
  exact ⟨s, t ++ b.data, by simp [String.data_append, hs, List.append_assoc]⟩

lemma str_contains_right (a : String) {b m : String} (h : str_contains b m) :
    str_contains (a ++ b) m := by
  obtain ⟨s, t, hs⟩ := h
  exact ⟨a.data ++ s, t, by simp [String.data_append, hs, List.append_assoc]⟩

/-- C9: every notification message contains the urgency indicator, the
hospital name, the blood type, the units needed, the distance rendered with
one decimal place, and the hospital contact phone; the indicator mapping is
low→🟢, medium→🟡, high→🔴, critical→🚨 with the default 🩸 for any other
urgency value (which does not fail the request); and every message the
pipeline attempts to send is exactly such a `build_message` instance. -/
theorem notification_message_parts (urgency hname bt phone : String)
    (units : Nat) (d : ℚ) :
    (str_contains (build_message urgency hname bt units d phone) (urgency_emoji urgency)
      ∧ str_contains (build_message urgency hname bt units d phone) hname
      ∧ str_contains (build_message urgency hname bt units d phone) bt
      ∧ str_contains (build_message urgency hname bt units d phone) (toString units)
      ∧ str_contains (build_message urgency hname bt units d phone) (format_km d)
      ∧ str_contains (build_message urgency hname bt units d phone) phone)
    ∧ (urgency_emoji "low" = "🟢" ∧ urgency_emoji "medium" = "🟡"
      ∧ urgency_emoji "high" = "🔴" ∧ urgency_emoji "critical" = "🚨")
    ∧ (urgency ≠ "low" → urgency ≠ "medium" → urgency ≠ "high" →
        urgency ≠ "critical" → urgency_emoji urgency = "🩸")
    ∧ ∀ (dist : ℚ → ℚ → ℚ → ℚ → ℚ) (send : String → String → Bool) (now : Nat)
        (st : DB) (request : BloodRequestIn) (s : String × String × Bool),
        s ∈ sends_attempted dist send now st request →
        ∃ (dd : ℚ) (h : Hospital),
          s.2.1 = build_message request.urgency h.name request.blood_type
            request.units_needed dd h.phone := by
  refine ⟨⟨?_, ?_, ?_, ?_, ?_, ?_⟩, ⟨rfl, rfl, rfl, rfl⟩, ?_, ?_⟩
  · unfold build_message
    exact str_contains_left _ (str_contains_left _ (str_contains_left _
      (str_contains_left _ (str_contains_left _ (str_contains_left _
      (str_contains_left _ (str_contains_left _ (str_contains_left _
      (str_contains_left _ (str_contains_left _ (str_contains_refl _)))))))))))
  · unfold build_message
    exact str_contains_left _ (str_contains_left _ (str_contains_left _
      (str_contains_left _ (str_contains_left _ (str_contains_left _
      (str_contains_left _ (str_contains_left _ (str_contains_left _
      (str_contains_right _ (str_contains_refl _))))))))))
  · unfold build_message
    exact str_contains_left _ (str_contains_left _ (str_contains_left _
      (str_contains_left _ (str_contains_left _ (str_contains_left _
      (str_contains_left _ (str_contains_right _ (str_contains_refl _))))))))
  · unfold build_message
    exact str_contains_left _ (str_contains_left _ (str_contains_left _
      (str_contains_left _ (str_contains_left _ (str_contains_right _
      (str_contains_refl _))))))
  · unfold build_message
    exact str_contains_left _ (str_contains_left _ (str_contains_left _
      (str_contains_right _ (str_contains_refl _))))
  · unfold build_message
    exact str_contains_left _ (str_contains_right _ (str_contains_refl _))
  · intro h1 h2 h3 h4
    simp [urgency_emoji, h1, h2, h3, h4]
  · intro dist send now st request s hs
    cases hfind : st.hospitals.find? (fun x => x.id == request.hospital_id) with
    | none => rw [sends_attempted_none hfind] at hs; cases hs
    | some h =>
      rw [sends_attempted_ok hfind] at hs
      obtain ⟨t, _, rfl⟩ := List.mem_map.mp hs
      exact ⟨t.distance, h, rfl⟩

/-- C9 witness: the unrecognized urgency `"unknown"` maps to the default 🩸
indicator, and `"critical"` maps to 🚨. -/
theorem notification_message_parts_witness :
    ("unknown" : String) ≠ "low" ∧ urgency_emoji "unknown" = "🩸"
    ∧ urgency_emoji "critical" = "🚨" :=
  ⟨by decide,
    (notification_message_parts "unknown" "City Hospital" "O+" "555-0100" 1 0).2.2.1
      (by decide) (by decide) (by decide) (by decide),
    (notification_message_parts "critical" "City Hospital" "O+" "555-0100" 1
        0).2.1.2.2.2⟩

/-- C10: `donor_respond` performs no validation at all: for every state and
every input it appends exactly one new response row carrying exactly the
given `(request_id, donor_id, response)` values, reports success, leaves
every other table unchanged, and never overwrites existing rows (the prior
history survives as a sublist and the count of the inserted row grows by
exactly one, even when an identical row already exists, the referenced
request or donor does not exist, or the response string is arbitrary). -/
theorem donor_respond_unconditional (st : DB) (r : DonorResponseIn) :
    (donor_respond st r).1.donor_responses
        = st.donor_responses ++ [⟨r.request_id, r.donor_id, r.response⟩]
    ∧ (donor_respond st r).2 = "Response recorded successfully"
    ∧ (donor_respond st r).1.donors = st.donors
    ∧ (donor_respond st r).1.hospitals = st.hospitals
    ∧ (donor_respond st r).1.blood_requests = st.blood_requests
    ∧ List.Sublist st.donor_responses (donor_respond st r).1.donor_responses
    ∧ ((donor_respond st r).1.donor_responses).count
          (⟨r.request_id, r.donor_id, r.response⟩ : ResponseRow)
        = st.donor_responses.count ⟨r.request_id, r.donor_id, r.response⟩ + 1 := by
  refine ⟨rfl, rfl, rfl, rfl, rfl, List.sublist_append_left _ _, ?_⟩
  simp [donor_respond, List.count_append]

end BloodDonor
